import Mathlib

/-!
Shallow embedding of the PolicyExpert service (src/database.py, src/main.py):
a CRUD REST API over three tables (insurance_claims, customer_policies,
customer_info), with a lookup endpoint that aggregates a claims summary, a
search endpoint, and an upsert-style update endpoint.

Dates and datetimes are abstracted as day/tick numbers; the database tables
are embedded as lists of rows keyed by customer_name; Python strings are
processed as lists of characters (Lean's built-in String loops do not reduce
in the kernel, so the handful of string operations the handlers use —
single-character replace, strip, isdigit, int, lower — are given faithful
executable models over List Char).
-/

namespace PolicyExpert

/-- Calendar date (database.py Date column), abstracted as a day number. -/
abbrev Date := Nat

/-- Timestamp (database.py DateTime column), abstracted as a tick number. -/
abbrev DateTime := Nat

/-! ## Database rows (database.py) -/

/-- Row of the insurance_claims table (database.py, class InsuranceClaims).
The created_at/updated_at audit columns are omitted: no handler reads them. -/
structure InsuranceClaims where
  claim_id : String
  policy_number : String
  customer_name : String
  claim_type : String
  amount : String
  date_submitted : DateTime
  description : String
  status : String
  rejection_reason : Option String
deriving DecidableEq

/-- Row of the customer_policies table (database.py, class CustomerPolicies).
The created_at audit column is omitted: no handler reads or writes it;
updated_at is kept because update_customer_info assigns it. -/
structure CustomerPolicies where
  customer_name : String
  vehicle_insurance : Option String
  medical_insurance : Option String
  life_insurance : Option String
  travel_insurance : Option String
  home_insurance : Option String
  vehicle_policy_numbers : Option String
  medical_policy_numbers : Option String
  life_policy_numbers : Option String
  travel_policy_numbers : Option String
  home_policy_numbers : Option String
  last_policy_renewal : Option Date
  customer_since : Date
  age : Option String
  location : Option String
  vehicle_addons : Option String
  medical_addons : Option String
  home_addons : Option String
  travel_addons : Option String
  life_addons : Option String
  updated_at : DateTime
deriving DecidableEq

/-- Row of the customer_info table (database.py, class CustomerInfo). -/
structure CustomerInfo where
  customer_name : String
  final_premium_amount : Option String
  addons_with_amount : Option String
deriving DecidableEq

/-! ## Python string primitives used by the handlers -/

/-- Python `s.replace(p, "")` for a single-character pattern `p` removes every
occurrence of the character `p` from `s`. All three replace calls in
get_customer_info use a single-character pattern and an empty replacement. -/
def removeChar (p : Char) (s : List Char) : List Char :=
  s.filter (fun c => c ≠ p)

/-- Python `s.strip()`: drop whitespace from both ends. -/
def pyStrip (s : List Char) : List Char :=
  ((s.dropWhile Char.isWhitespace).reverse.dropWhile Char.isWhitespace).reverse

/-- Python `s.isdigit()`: true iff `s` is nonempty and every character is a
digit. -/
def pyIsdigit (s : List Char) : Bool :=
  !s.isEmpty && s.all Char.isDigit

/-- Python `int(s)` on an all-digit decimal string. -/
def pyInt (s : List Char) : Nat :=
  s.foldl (fun n c => 10 * n + (c.toNat - Char.toNat '0')) 0

/-- Python truthiness of an optional string: None and the empty string are
falsy, every other string is truthy (used by `if name:` in search_customers
and by `if customer_info_data.final_premium_amount` on the create path). -/
def pyTruthy : Option String → Bool
  | none => false
  | some s => s ≠ ""

/-- Helper for substring search over character lists: does `hay` start with
`pat`. -/
def startsWithList : List Char → List Char → Bool
  | _, [] => true
  | [], _ :: _ => false
  | h :: hs, p :: ps => h = p && startsWithList hs ps

/-- Substring search over character lists: does `hay` contain `pat` as a
contiguous substring. -/
def containsList (pat : List Char) : List Char → Bool
  | [] => pat.isEmpty
  | c :: hs => startsWithList (c :: hs) pat || containsList pat hs

/-- SQL `ilike "%pat%"` as used in search_customers: case-insensitive
substring match. -/
def ilikeContains (hay pat : String) : Bool :=
  containsList (pat.toList.map Char.toLower) (hay.toList.map Char.toLower)

/-! ## get_customer_info claims summary (main.py lines 178-221) -/

/-- Code at main.py line 194: `[c for c in claims if c.status == "APPROVED"]`. -/
def approved_claims (claims : List InsuranceClaims) : List InsuranceClaims :=
  claims.filter (fun c => c.status = "APPROVED")

/-- Code at main.py line 195: `[c for c in claims if c.status == "REJECTED"]`. -/
def rejected_claims (claims : List InsuranceClaims) : List InsuranceClaims :=
  claims.filter (fun c => c.status = "REJECTED")

/-- Code at main.py line 196: `[c for c in claims if c.status == "UNDER_REVIEW"]`. -/
def under_review_claims (claims : List InsuranceClaims) : List InsuranceClaims :=
  claims.filter (fun c => c.status = "UNDER_REVIEW")

/-- Code at main.py line 203: strip the currency symbol, the mangled currency
glyph and commas from an amount string, then strip whitespace:
`claim.amount.replace("₹", "").replace("?", "").replace(",", "").strip()`. -/
def cleanAmount (s : String) : List Char :=
  pyStrip (removeChar ',' (removeChar '?' (removeChar '₹' s.toList)))

/-- Amount accumulation loop of main.py lines 202-210: add `int(residue)` when
the cleaned residue is all digits, else leave the accumulator unchanged. -/
def sumAmounts (claims : List InsuranceClaims) : Nat :=
  claims.foldl
    (fun acc c =>
      let a := cleanAmount c.amount
      if pyIsdigit a then acc + pyInt a else acc)
    0

/-- Contribution of one amount string to a total: the parsed integer when the
cleaned residue is all digits, else 0. -/
def amountContribution (s : String) : Nat :=
  let a := cleanAmount s
  if pyIsdigit a then pyInt a else 0

/-- Python `round(x, 2)`: round to two decimal places (round to nearest; the
tie-breaking convention is irrelevant to every claim checked here, so
Mathlib's `round` is used). -/
def round2 (q : ℚ) : ℚ :=
  (round (q * 100) : ℚ) / 100

/-- The claims_summary dict built at main.py lines 212-221. The two total
amounts are kept as the integer accumulator values (the handler serialises
them with thousands separators when shaping the response). -/
structure ClaimsSummary where
  total_claims : Nat
  approved_count : Nat
  rejected_count : Nat
  under_review_count : Nat
  approval_rate : ℚ
  total_approved_amount : Nat
  total_rejected_amount : Nat
  last_claim_date : Option DateTime
deriving DecidableEq

/-- Claims-summary computation of get_customer_info (main.py lines 192-221),
taking the customer's claims list as returned by the ordered query. -/
def claims_summary (claims : List InsuranceClaims) : ClaimsSummary :=
  let total := claims.length
  { total_claims := total
    approved_count := (approved_claims claims).length
    rejected_count := (rejected_claims claims).length
    under_review_count := (under_review_claims claims).length
    approval_rate :=
      if total > 0 then
        round2 (((approved_claims claims).length : ℚ) / (total : ℚ) * 100)
      else 0
    total_approved_amount := sumAmounts (approved_claims claims)
    total_rejected_amount := sumAmounts (rejected_claims claims)
    last_claim_date := claims.head?.map (fun c => c.date_submitted) }

/-! ## search_customers (main.py lines 258-321) -/

/-- One entry of the search response list (main.py lines 295-310). -/
structure SearchEntry where
  customer_name : String
  age : Option String
  location : Option String
  customer_since : Date
  last_policy_renewal : Option Date
  active_policies : List String
deriving DecidableEq

/-- Projection of one CustomerPolicies row to a search entry; active_policies
keeps the label of each of the five insurance lines whose value is not null
(main.py lines 301-309). -/
def searchEntry (c : CustomerPolicies) : SearchEntry :=
  { customer_name := c.customer_name
    age := c.age
    location := c.location
    customer_since := c.customer_since
    last_policy_renewal := c.last_policy_renewal
    active_policies :=
      ([("vehicle", c.vehicle_insurance), ("medical", c.medical_insurance),
        ("life", c.life_insurance), ("travel", c.travel_insurance),
        ("home", c.home_insurance)].filter (fun pv => pv.2.isSome)).map
        (fun pv => pv.1) }

/-- Result of the search endpoint: the three return sites of
search_customers. `emptyOk` is the bare `{"customers": [], "total": 0}` body
returned when no filter is active and the table is empty; `listing` is the
body with search_term/total/customers; `err404` carries the detail string of
the Not-Found response. -/
inductive SearchResult where
  | err404 (detail : String)
  | emptyOk
  | listing (search_term : Option String) (total : Nat) (customers : List SearchEntry)
deriving DecidableEq

/-- The search_customers handler (main.py lines 258-321). `name = none` models
an absent query parameter; `some ""` models `?name=`. The filter is applied
only when `name` is truthy, mirroring the two `if name:` tests. -/
def search_customers (name : Option String) (table : List CustomerPolicies) :
    SearchResult :=
  let customers :=
    if pyTruthy name then
      table.filter (fun c => ilikeContains c.customer_name (name.getD ""))
    else table
  if customers.isEmpty then
    if pyTruthy name then
      .err404 ("No customers found with name containing " ++ name.getD "")
    else .emptyOk
  else
    .listing name customers.length (customers.map searchEntry)

/-! ## update_customer_info payloads (main.py lines 67-98) -/

/-- Value of one optional field of CustomerPolicyUpdateRequest as pydantic
sees it: omitted from the request body (unset), supplied as JSON null, or
supplied as a string. `dict(exclude_unset=True)` drops unset fields, and the
update loop additionally skips fields whose value is None. -/
inductive PField where
  | unset
  | null
  | val (s : String)
deriving DecidableEq

/-- Effect of the update loop of main.py lines 455-457 on one field: a field
absent from `dict(exclude_unset=True)` (unset) or present with value None
(null) leaves the stored value unchanged; a non-null value is written. -/
def PField.apply : PField → Option String → Option String
  | .unset, old => old
  | .null, old => old
  | .val s, _ => some s

/-- Value of the field as read directly off the pydantic model on the create
path (main.py lines 463-483): unset and null are both the attribute None. -/
def PField.toOption : PField → Option String
  | .unset => none
  | .null => none
  | .val s => some s

/-- Pydantic model CustomerInfoUpdateRequest (main.py lines 67-70). Both
optional fields default to None; this handler path reads the attributes
directly, so an unset field is indistinguishable from an explicit null. -/
structure CustomerInfoUpdateRequest where
  customer_name : String
  final_premium_amount : Option String := none
  addons_with_amount : Option String := none
deriving DecidableEq

/-- Pydantic model CustomerPolicyUpdateRequest (main.py lines 72-94). It has
no customer_since and no last_policy_renewal field, and extra request fields
are ignored (Config.extra = "ignore"), so no request can carry either. -/
structure CustomerPolicyUpdateRequest where
  customer_name : String
  vehicle_insurance : PField := .unset
  medical_insurance : PField := .unset
  life_insurance : PField := .unset
  travel_insurance : PField := .unset
  home_insurance : PField := .unset
  vehicle_policy_numbers : PField := .unset
  medical_policy_numbers : PField := .unset
  life_policy_numbers : PField := .unset
  travel_policy_numbers : PField := .unset
  home_policy_numbers : PField := .unset
  age : PField := .unset
  location : PField := .unset
  vehicle_addons : PField := .unset
  medical_addons : PField := .unset
  home_addons : PField := .unset
  travel_addons : PField := .unset
  life_addons : PField := .unset
deriving DecidableEq

/-- Request body UpdateCustomerInfoRequest (main.py lines 96-98). -/
structure UpdateCustomerInfoRequest where
  customer_info : Option CustomerInfoUpdateRequest := none
  customer_policy : Option CustomerPolicyUpdateRequest := none

/-! ## update_customer_info handler (main.py lines 389-530) -/

/-- Update branch for an existing customer_info row (main.py lines 418-425):
final_premium_amount is overwritten with the stripped value only when the
payload value is not None; addons_with_amount is always overwritten, even
with None. -/
def updateExistingCustomerInfo (p : CustomerInfoUpdateRequest)
    (old : CustomerInfo) : CustomerInfo :=
  { old with
    final_premium_amount :=
      match p.final_premium_amount with
      | some s => some ⟨pyStrip s.toList⟩
      | none => old.final_premium_amount
    addons_with_amount := p.addons_with_amount }

/-- Create branch for a missing customer_info row (main.py lines 427-433):
`final_premium_amount=... .strip() if customer_info_data.final_premium_amount
else None` — a Python truthiness test, so an empty string is stored as None. -/
def createCustomerInfo (p : CustomerInfoUpdateRequest) : CustomerInfo :=
  { customer_name := p.customer_name
    final_premium_amount :=
      if pyTruthy p.final_premium_amount then
        (p.final_premium_amount.map (fun s => (⟨pyStrip s.toList⟩ : String)))
      else none
    addons_with_amount := p.addons_with_amount }

/-- Update branch for an existing customer_policies row (main.py lines
453-460): every field of `dict(exclude_unset=True)` other than customer_name
whose value is not None is written; updated_at is set to the current time. -/
def updateExistingCustomerPolicy (p : CustomerPolicyUpdateRequest)
    (now : DateTime) (old : CustomerPolicies) : CustomerPolicies :=
  { old with
    vehicle_insurance := p.vehicle_insurance.apply old.vehicle_insurance
    medical_insurance := p.medical_insurance.apply old.medical_insurance
    life_insurance := p.life_insurance.apply old.life_insurance
    travel_insurance := p.travel_insurance.apply old.travel_insurance
    home_insurance := p.home_insurance.apply old.home_insurance
    vehicle_policy_numbers := p.vehicle_policy_numbers.apply old.vehicle_policy_numbers
    medical_policy_numbers := p.medical_policy_numbers.apply old.medical_policy_numbers
    life_policy_numbers := p.life_policy_numbers.apply old.life_policy_numbers
    travel_policy_numbers := p.travel_policy_numbers.apply old.travel_policy_numbers
    home_policy_numbers := p.home_policy_numbers.apply old.home_policy_numbers
    age := p.age.apply old.age
    location := p.location.apply old.location
    vehicle_addons := p.vehicle_addons.apply old.vehicle_addons
    medical_addons := p.medical_addons.apply old.medical_addons
    home_addons := p.home_addons.apply old.home_addons
    travel_addons := p.travel_addons.apply old.travel_addons
    life_addons := p.life_addons.apply old.life_addons
    updated_at := now }

/-- Create branch for a missing customer_policies row (main.py lines
462-484): every payload attribute is stored as-is (None when unset or null),
customer_since is set to the current date, last_policy_renewal is not set
(stays NULL), updated_at takes its column default. -/
def createCustomerPolicy (p : CustomerPolicyUpdateRequest) (today : Date)
    (now : DateTime) : CustomerPolicies :=
  { customer_name := p.customer_name
    vehicle_insurance := p.vehicle_insurance.toOption
    medical_insurance := p.medical_insurance.toOption
    life_insurance := p.life_insurance.toOption
    travel_insurance := p.travel_insurance.toOption
    home_insurance := p.home_insurance.toOption
    vehicle_policy_numbers := p.vehicle_policy_numbers.toOption
    medical_policy_numbers := p.medical_policy_numbers.toOption
    life_policy_numbers := p.life_policy_numbers.toOption
    travel_policy_numbers := p.travel_policy_numbers.toOption
    home_policy_numbers := p.home_policy_numbers.toOption
    last_policy_renewal := none
    customer_since := today
    age := p.age.toOption
    location := p.location.toOption
    vehicle_addons := p.vehicle_addons.toOption
    medical_addons := p.medical_addons.toOption
    home_addons := p.home_addons.toOption
    travel_addons := p.travel_addons.toOption
    life_addons := p.life_addons.toOption
    updated_at := now }

/-- Lookup of a customer_info row by primary key. -/
def findInfo (table : List CustomerInfo) (name : String) : Option CustomerInfo :=
  table.find? (fun r => r.customer_name = name)

/-- Lookup of a customer_policies row by primary key. -/
def findPolicy (table : List CustomerPolicies) (name : String) :
    Option CustomerPolicies :=
  table.find? (fun r => r.customer_name = name)

/-- Replacement of the row keyed by `r.customer_name` with `r`. -/
def replaceInfo (table : List CustomerInfo) (r : CustomerInfo) :
    List CustomerInfo :=
  table.map (fun x => if x.customer_name = r.customer_name then r else x)

/-- Replacement of the row keyed by `r.customer_name` with `r`. -/
def replacePolicy (table : List CustomerPolicies) (r : CustomerPolicies) :
    List CustomerPolicies :=
  table.map (fun x => if x.customer_name = r.customer_name then r else x)

/-- Processing of the customer_info sub-payload (main.py lines 410-442):
upsert by customer_name and return the refreshed row together with the table
after commit. -/
def processInfoPayload (p : CustomerInfoUpdateRequest)
    (table : List CustomerInfo) : CustomerInfo × List CustomerInfo :=
  match findInfo table p.customer_name with
  | some old =>
      let r := updateExistingCustomerInfo p old
      (r, replaceInfo table r)
  | none =>
      let r := createCustomerInfo p
      (r, table ++ [r])

/-- Processing of the customer_policy sub-payload (main.py lines 445-511):
upsert by customer_name and return the refreshed row together with the table
after commit. -/
def processPolicyPayload (p : CustomerPolicyUpdateRequest) (today : Date)
    (now : DateTime) (table : List CustomerPolicies) :
    CustomerPolicies × List CustomerPolicies :=
  match findPolicy table p.customer_name with
  | some old =>
      let r := updateExistingCustomerPolicy p now old
      (r, replacePolicy table r)
  | none =>
      let r := createCustomerPolicy p today now
      (r, table ++ [r])

/-- The persistent store seen by the update endpoint: the two tables it
writes. -/
structure DB where
  customer_info : List CustomerInfo
  customer_policies : List CustomerPolicies
deriving DecidableEq

/-- Outcome of the update endpoint: Bad-Request 400 when neither sub-payload
is supplied (main.py lines 513-517), Internal 500 on a failure (main.py lines
528-530), or success echoing the refreshed row for each entity touched
(main.py lines 438-442 and 489-511). -/
inductive UpdateOutcome where
  | badRequest
  | internalError
  | ok (info : Option CustomerInfo) (policy : Option CustomerPolicies)
deriving DecidableEq

/-- Control-flow model of the update_customer_info handler (main.py lines
389-530) with a fault-injection flag: the customer_info sub-payload is
processed and committed first (db.commit() at line 435); the customer_policy
sub-payload is processed afterwards and committed at line 486.
`policy_step_ok = false` injects a failure while the customer_policy
sub-payload is being processed: the except handler rolls back only the
in-flight (uncommitted) transaction, so the state already committed for
customer_info is kept and the policies table is left as it was. -/
def update_customer_info_run (req : UpdateCustomerInfoRequest) (today : Date)
    (now : DateTime) (policy_step_ok : Bool) (db : DB) : UpdateOutcome × DB :=
  let step1 :=
    match req.customer_info with
    | some p =>
        let pr := processInfoPayload p db.customer_info
        (some pr.1, { db with customer_info := pr.2 })
    | none => (none, db)
  let infoEcho := step1.1
  let db1 := step1.2
  match req.customer_policy with
  | some p =>
      if policy_step_ok then
        let pr := processPolicyPayload p today now db1.customer_policies
        (.ok infoEcho (some pr.1), { db1 with customer_policies := pr.2 })
      else
        (.internalError, db1)
  | none =>
      match infoEcho with
      | none => (.badRequest, db1)
      | some r => (.ok (some r) none, db1)

/-- The update_customer_info handler on the non-faulting path. -/
def update_customer_info (req : UpdateCustomerInfoRequest) (today : Date)
    (now : DateTime) (db : DB) : UpdateOutcome × DB :=
  update_customer_info_run req today now true db

/-! ## Concrete fixtures used to instantiate the theorems -/

/-- Example customer_policies row. -/
def rowAsha : CustomerPolicies :=
  { customer_name := "Asha"
    vehicle_insurance := some "Car"
    medical_insurance := none
    life_insurance := none
    travel_insurance := none
    home_insurance := some "Villa"
    vehicle_policy_numbers := some "DCAR00920600359/00"
    medical_policy_numbers := none
    life_policy_numbers := none
    travel_policy_numbers := none
    home_policy_numbers := none
    last_policy_renewal := some 90
    customer_since := 40
    age := some "25-30"
    location := some "Pune"
    vehicle_addons := none
    medical_addons := none
    home_addons := none
    travel_addons := none
    life_addons := none
    updated_at := 0 }

/-- Example customer_policy sub-payload addressing `rowAsha`: one field
supplied with a value, one supplied as null, the rest omitted. -/
def payAsha : CustomerPolicyUpdateRequest :=
  { customer_name := "Asha"
    vehicle_insurance := .val "Car, Bike"
    home_insurance := .null }

/-- Example customer_info row with a non-null addons_with_amount. -/
def rowDiya : CustomerInfo :=
  { customer_name := "Diya"
    final_premium_amount := some "₹15,000"
    addons_with_amount := some "Consumables Coverage: ₹1,500" }

/-- Example customer_info sub-payload addressing `rowDiya`: a premium with
surrounding whitespace and addons supplied as null. -/
def payDiya : CustomerInfoUpdateRequest :=
  { customer_name := "Diya"
    final_premium_amount := some " ₹25,000 "
    addons_with_amount := none }

/-- Example customer_policy sub-payload naming a customer with no existing
record; only medical_insurance is supplied. -/
def payRavi : CustomerPolicyUpdateRequest :=
  { customer_name := "Ravi"
    medical_insurance := .val "Family" }

/-- Example customer_info sub-payload supplying the empty-string premium. -/
def payEmpty : CustomerInfoUpdateRequest :=
  { customer_name := "Diya"
    final_premium_amount := some "" }

/-- Example approved claim with a currency-formatted amount. -/
def claimApproved : InsuranceClaims :=
  { claim_id := "CLM001"
    policy_number := "DCAR00920600359/00"
    claim_type := "Vehicle"
    customer_name := "Asha"
    amount := "₹45,000"
    date_submitted := 7
    description := "Windshield replacement"
    status := "APPROVED"
    rejection_reason := none }

/-- Example claim whose status has the mixed casing observed in the data. -/
def claimMixedCase : InsuranceClaims :=
  { claim_id := "CLM002"
    policy_number := "DMED00920600359/00"
    claim_type := "Medical"
    customer_name := "Asha"
    amount := "₹12,000"
    date_submitted := 9
    description := "Hospitalisation"
    status := "Under Review"
    rejection_reason := none }

/-! ## Claims -/

/--
C1: For every upsert of a CustomerPolicy record that already exists, a field
of the update payload that is omitted (unset) or supplied as null leaves the
stored value of that field unchanged, and a field supplied with a non-null
value replaces the stored value with the supplied value; this holds for
every updatable field other than customer_name.
-/
theorem C1_policy_partial_update :
    (∀ o, PField.unset.apply o = o) ∧
    (∀ o, PField.null.apply o = o) ∧
    (∀ s o, (PField.val s).apply o = some s) ∧
    (∀ (p : CustomerPolicyUpdateRequest) (today : Date) (now : DateTime)
        (table : List CustomerPolicies) (old : CustomerPolicies),
      findPolicy table p.customer_name = some old →
      (processPolicyPayload p today now table).1 =
        updateExistingCustomerPolicy p now old) ∧
    (∀ (p : CustomerPolicyUpdateRequest) (now : DateTime)
        (old : CustomerPolicies),
      (updateExistingCustomerPolicy p now old).vehicle_insurance =
        p.vehicle_insurance.apply old.vehicle_insurance ∧
      (updateExistingCustomerPolicy p now old).medical_insurance =
        p.medical_insurance.apply old.medical_insurance ∧
      (updateExistingCustomerPolicy p now old).life_insurance =
        p.life_insurance.apply old.life_insurance ∧
      (updateExistingCustomerPolicy p now old).travel_insurance =
        p.travel_insurance.apply old.travel_insurance ∧
      (updateExistingCustomerPolicy p now old).home_insurance =
        p.home_insurance.apply old.home_insurance ∧
      (updateExistingCustomerPolicy p now old).vehicle_policy_numbers =
        p.vehicle_policy_numbers.apply old.vehicle_policy_numbers ∧
      (updateExistingCustomerPolicy p now old).medical_policy_numbers =
        p.medical_policy_numbers.apply old.medical_policy_numbers ∧
      (updateExistingCustomerPolicy p now old).life_policy_numbers =
        p.life_policy_numbers.apply old.life_policy_numbers ∧
      (updateExistingCustomerPolicy p now old).travel_policy_numbers =
        p.travel_policy_numbers.apply old.travel_policy_numbers ∧
      (updateExistingCustomerPolicy p now old).home_policy_numbers =
        p.home_policy_numbers.apply old.home_policy_numbers ∧
      (updateExistingCustomerPolicy p now old).age = p.age.apply old.age ∧
      (updateExistingCustomerPolicy p now old).location =
        p.location.apply old.location ∧
      (updateExistingCustomerPolicy p now old).vehicle_addons =
        p.vehicle_addons.apply old.vehicle_addons ∧
      (updateExistingCustomerPolicy p now old).medical_addons =
        p.medical_addons.apply old.medical_addons ∧
      (updateExistingCustomerPolicy p now old).home_addons =
        p.home_addons.apply old.home_addons ∧
      (updateExistingCustomerPolicy p now old).travel_addons =
        p.travel_addons.apply old.travel_addons ∧
      (updateExistingCustomerPolicy p now old).life_addons =
        p.life_addons.apply old.life_addons ∧
      (updateExistingCustomerPolicy p now old).customer_name =
        old.customer_name) := by
  refine ⟨fun o => rfl, fun o => rfl, fun s o => rfl, ?_, ?_⟩
  · intro p today now table old h
    simp [processPolicyPayload, h]
  · intro p now old
    exact ⟨rfl, rfl, rfl, rfl, rfl, rfl, rfl, rfl, rfl, rfl, rfl, rfl, rfl,
      rfl, rfl, rfl, rfl, rfl⟩

/--
Witness for C1: applying the upsert with payload `payAsha` to a table holding
`rowAsha` takes the existing-record branch, overwrites vehicle_insurance with
the supplied value, and leaves the null-supplied home_insurance and the
omitted location unchanged.
-/
theorem C1_policy_partial_update_witness :
    (processPolicyPayload payAsha 50 60 [rowAsha]).1.vehicle_insurance =
        some "Car, Bike" ∧
    (processPolicyPayload payAsha 50 60 [rowAsha]).1.home_insurance =
        some "Villa" ∧
    (processPolicyPayload payAsha 50 60 [rowAsha]).1.location = some "Pune" := by
  have h := C1_policy_partial_update.2.2.2.1 payAsha 50 60 [rowAsha] rowAsha
    (by decide)
  rw [h]
  exact ⟨rfl, rfl, rfl⟩

/--
C2: For every upsert of an existing CustomerInfoSummary record,
addons_with_amount is overwritten with the supplied value unconditionally —
including overwriting a previously non-null stored value with null when the
payload supplies null — while final_premium_amount is overwritten only when
the payload supplies a non-null value, in which case the stored value becomes
the supplied value with surrounding whitespace stripped.
-/
theorem C2_info_update_semantics :
    ∀ (p : CustomerInfoUpdateRequest) (table : List CustomerInfo)
      (old : CustomerInfo),
      findInfo table p.customer_name = some old →
      (processInfoPayload p table).1 = updateExistingCustomerInfo p old ∧
      (updateExistingCustomerInfo p old).addons_with_amount =
        p.addons_with_amount ∧
      (p.final_premium_amount = none →
        (updateExistingCustomerInfo p old).final_premium_amount =
          old.final_premium_amount) ∧
      (∀ s, p.final_premium_amount = some s →
        (updateExistingCustomerInfo p old).final_premium_amount =
          some ⟨pyStrip s.toList⟩) := by
  intro p table old h
  refine ⟨by simp [processInfoPayload, h], rfl, ?_, ?_⟩
  · intro hn
    simp [updateExistingCustomerInfo, hn]
  · intro s hs
    simp [updateExistingCustomerInfo, hs]

/--
Witness for C2: upserting `payDiya` over a table holding `rowDiya` overwrites
the previously non-null addons_with_amount with null and stores the
stripped premium.
-/
theorem C2_info_update_semantics_witness :
    rowDiya.addons_with_amount = some "Consumables Coverage: ₹1,500" ∧
    (processInfoPayload payDiya [rowDiya]).1.addons_with_amount = none ∧
    (processInfoPayload payDiya [rowDiya]).1.final_premium_amount =
      some "₹25,000" := by
  have h := C2_info_update_semantics payDiya [rowDiya] rowDiya (by decide)
  refine ⟨rfl, ?_, ?_⟩
  · rw [h.1, h.2.1]
    decide
  · rw [h.1, h.2.2.2 " ₹25,000 " rfl]
    decide

/-- The accumulation loop of main.py lines 202-210 computes the sum of the
per-claim amount contributions. -/
theorem sumAmounts_eq_sum_contributions (claims : List InsuranceClaims) :
    sumAmounts claims =
      (claims.map (fun c => amountContribution c.amount)).sum := by
  have key : ∀ (l : List InsuranceClaims) (a : Nat),
      l.foldl (fun acc c =>
        let x := cleanAmount c.amount
        if pyIsdigit x then acc + pyInt x else acc) a =
      a + (l.map (fun c => amountContribution c.amount)).sum := by
    intro l
    induction l with
    | nil => intro a; simp
    | cons c t ih =>
      intro a
      simp only [List.foldl_cons, List.map_cons, List.sum_cons, ih]
      cases hd : pyIsdigit (cleanAmount c.amount) <;>
        (simp [amountContribution, hd]; try omega)
  simpa using key claims 0

/--
C3: For every customer-info lookup that succeeds, the claims_summary
approval_rate equals approved_count divided by total_claims times 100,
rounded to 2 decimal places, whenever total_claims > 0, and equals 0 when
total_claims = 0; the computation never divides when the customer has zero
claims.
-/
theorem C3_approval_rate (claims : List InsuranceClaims) :
    (claims_summary claims).total_claims = claims.length ∧
    (claims_summary claims).approved_count =
      claims.countP (fun c => c.status = "APPROVED") ∧
    (0 < claims.length →
      (claims_summary claims).approval_rate =
        round2 ((claims.countP (fun c => c.status = "APPROVED") : ℚ) /
          (claims.length : ℚ) * 100)) ∧
    (claims.length = 0 → (claims_summary claims).approval_rate = 0) := by
  refine ⟨rfl, ?_, ?_, ?_⟩
  · simp [claims_summary, approved_claims, List.countP_eq_length_filter]
  · intro h
    simp [claims_summary, approved_claims, List.countP_eq_length_filter, h]
  · intro h
    simp [claims_summary, h]

/--
Witness for C3: for one APPROVED claim among two, the approval rate is
round2 of one half times 100, that is 50; for zero claims it is 0.
-/
theorem C3_approval_rate_witness :
    0 < ([claimApproved, claimMixedCase] : List InsuranceClaims).length ∧
    (claims_summary [claimApproved, claimMixedCase]).approval_rate = 50 ∧
    (claims_summary ([] : List InsuranceClaims)).approval_rate = 0 := by
  refine ⟨by decide, ?_, (C3_approval_rate []).2.2.2 rfl⟩
  have h := (C3_approval_rate [claimApproved, claimMixedCase]).2.2.1 (by decide)
  have hc : ([claimApproved, claimMixedCase] : List InsuranceClaims).countP
      (fun c => c.status = "APPROVED") = 1 := by decide
  rw [h, hc]
  norm_num [round2, round_eq]

/--
C4: For every claim returned by the customer-info lookup, the claim is
counted in the approved, rejected, or under-review bucket of claims_summary
if and only if its status string is exactly "APPROVED", "REJECTED", or
"UNDER_REVIEW" respectively (case-sensitive exact equality); a claim whose
status is any other string (e.g. "Under Review") is counted in none of the
three buckets, while still contributing to total_claims.
-/
theorem C4_bucket_membership :
    ∀ (claims : List InsuranceClaims) (c : InsuranceClaims), c ∈ claims →
      ((c ∈ approved_claims claims ↔ c.status = "APPROVED") ∧
       (c ∈ rejected_claims claims ↔ c.status = "REJECTED") ∧
       (c ∈ under_review_claims claims ↔ c.status = "UNDER_REVIEW")) ∧
      (claims_summary claims).total_claims = claims.length := by
  intro claims c hc
  refine ⟨⟨?_, ?_, ?_⟩, rfl⟩ <;>
    simp [approved_claims, rejected_claims, under_review_claims,
      List.mem_filter, hc]

/--
Witness for C4: the claim whose status is "Under Review" (mixed case) lands
in none of the three buckets yet still counts towards total_claims = 2.
-/
theorem C4_bucket_membership_witness :
    claimMixedCase.status = "Under Review" ∧
    claimMixedCase ∉ approved_claims [claimApproved, claimMixedCase] ∧
    claimMixedCase ∉ rejected_claims [claimApproved, claimMixedCase] ∧
    claimMixedCase ∉ under_review_claims [claimApproved, claimMixedCase] ∧
    (claims_summary [claimApproved, claimMixedCase]).total_claims = 2 := by
  have h := C4_bucket_membership [claimApproved, claimMixedCase] claimMixedCase
    (by decide)
  refine ⟨rfl, ?_, ?_, ?_, h.2⟩
  · intro hmem
    exact absurd (h.1.1.mp hmem) (by decide)
  · intro hmem
    exact absurd (h.1.2.1.mp hmem) (by decide)
  · intro hmem
    exact absurd (h.1.2.2.mp hmem) (by decide)

/--
C5: For every customer-info lookup, total_approved_amount (resp.
total_rejected_amount) is the sum, over claims in the approved (resp.
rejected) bucket, of the integer obtained from the claim's amount string
after removing currency symbols and commas and stripping whitespace,
provided the residue consists only of digits; a claim whose residue is not
all digits contributes 0 to the sum rather than causing an error. In
particular an approved claim with amount "₹45,000" contributes 45000 to
total_approved_amount.
-/
theorem C5_amount_totals (claims : List InsuranceClaims) :
    (claims_summary claims).total_approved_amount =
      ((approved_claims claims).map (fun c => amountContribution c.amount)).sum ∧
    (claims_summary claims).total_rejected_amount =
      ((rejected_claims claims).map (fun c => amountContribution c.amount)).sum ∧
    (∀ s, pyIsdigit (cleanAmount s) = true →
      amountContribution s = pyInt (cleanAmount s)) ∧
    (∀ s, pyIsdigit (cleanAmount s) = false → amountContribution s = 0) ∧
    amountContribution "₹45,000" = 45000 := by
  refine ⟨sumAmounts_eq_sum_contributions _, sumAmounts_eq_sum_contributions _,
    ?_, ?_, by decide⟩
  · intro s hs
    simp [amountContribution, hs]
  · intro s hs
    simp [amountContribution, hs]

/--
Witness for C5: the amount "₹45,000" cleans to an all-digit residue and
contributes its parsed value 45000; a non-numeric amount contributes 0.
-/
theorem C5_amount_totals_witness :
    pyIsdigit (cleanAmount "₹45,000") = true ∧
    amountContribution "₹45,000" = pyInt (cleanAmount "₹45,000") ∧
    pyInt (cleanAmount "₹45,000") = 45000 ∧
    pyIsdigit (cleanAmount "not a number") = false ∧
    amountContribution "not a number" = 0 := by
  exact ⟨by decide, (C5_amount_totals []).2.2.1 "₹45,000" (by decide),
    by decide, by decide, (C5_amount_totals []).2.2.2.1 "not a number" (by decide)⟩

/--
C6 counterexample: the empty-string filter is a supplied name filter (the
query parameter is present), the empty table has zero matching records, yet
the handler returns the empty 200 listing rather than Not-Found 404, because
`if name:` treats the empty string as no filter.
-/
theorem C6_search_counterexample :
    (some "" : Option String) ≠ (none : Option String) ∧
    ([] : List CustomerPolicies).filter
      (fun c => ilikeContains c.customer_name "") = [] ∧
    search_customers (some "") [] = .emptyOk := by
  exact ⟨by decide, rfl, by decide⟩

/--
C6 (amended): For every search request with a non-empty name filter matching
zero CustomerPolicy records (case-insensitive substring), the endpoint fails
with Not-Found 404; a request with no filter, or with the empty-string
filter (which the handler treats as no filter), succeeds on an empty
CustomerPolicy table with the empty customer list and total 0.
-/
theorem C6_search_zero_matches :
    (∀ (s : String) (table : List CustomerPolicies), s ≠ "" →
      table.filter (fun c => ilikeContains c.customer_name s) = [] →
      search_customers (some s) table =
        .err404 ("No customers found with name containing " ++ s)) ∧
    search_customers none [] = .emptyOk ∧
    search_customers (some "") [] = .emptyOk := by
  refine ⟨?_, rfl, by decide⟩
  intro s table hs hf
  simp [search_customers, pyTruthy, hs, hf]

/--
Witness for C6: searching for "zzz" over a table holding only `rowAsha`
matches zero records and yields the Not-Found result.
-/
theorem C6_search_zero_matches_witness :
    search_customers (some "zzz") [rowAsha] =
      .err404 ("No customers found with name containing " ++ "zzz") := by
  exact C6_search_zero_matches.1 "zzz" [rowAsha] (by decide) (by decide)

/--
C7: For every update request whose customer_policy sub-payload names a
customer with no existing CustomerPolicy record, a new record is inserted
whose customer_since is the current date and whose fields not supplied (or
supplied as null) in the payload are stored as null; the response echoes
this state, including customer_since = today's date.
-/
theorem C7_create_policy_defaults :
    ∀ (req : UpdateCustomerInfoRequest) (p : CustomerPolicyUpdateRequest)
      (today : Date) (now : DateTime) (db : DB),
      req.customer_policy = some p →
      findPolicy db.customer_policies p.customer_name = none →
      (∃ info, (update_customer_info req today now db).1 =
        .ok info (some (createCustomerPolicy p today now))) ∧
      ((update_customer_info req today now db).2).customer_policies =
        db.customer_policies ++ [createCustomerPolicy p today now] ∧
      (createCustomerPolicy p today now).customer_since = today ∧
      (createCustomerPolicy p today now).last_policy_renewal = none ∧
      (createCustomerPolicy p today now).vehicle_insurance =
        p.vehicle_insurance.toOption ∧
      (createCustomerPolicy p today now).medical_insurance =
        p.medical_insurance.toOption ∧
      (createCustomerPolicy p today now).life_insurance =
        p.life_insurance.toOption ∧
      (createCustomerPolicy p today now).travel_insurance =
        p.travel_insurance.toOption ∧
      (createCustomerPolicy p today now).home_insurance =
        p.home_insurance.toOption ∧
      (createCustomerPolicy p today now).vehicle_policy_numbers =
        p.vehicle_policy_numbers.toOption ∧
      (createCustomerPolicy p today now).medical_policy_numbers =
        p.medical_policy_numbers.toOption ∧
      (createCustomerPolicy p today now).life_policy_numbers =
        p.life_policy_numbers.toOption ∧
      (createCustomerPolicy p today now).travel_policy_numbers =
        p.travel_policy_numbers.toOption ∧
      (createCustomerPolicy p today now).home_policy_numbers =
        p.home_policy_numbers.toOption ∧
      (createCustomerPolicy p today now).age = p.age.toOption ∧
      (createCustomerPolicy p today now).location = p.location.toOption ∧
      (createCustomerPolicy p today now).vehicle_addons =
        p.vehicle_addons.toOption ∧
      (createCustomerPolicy p today now).medical_addons =
        p.medical_addons.toOption ∧
      (createCustomerPolicy p today now).home_addons =
        p.home_addons.toOption ∧
      (createCustomerPolicy p today now).travel_addons =
        p.travel_addons.toOption ∧
      (createCustomerPolicy p today now).life_addons =
        p.life_addons.toOption ∧
      PField.unset.toOption = none ∧
      PField.null.toOption = none ∧
      (∀ s, (PField.val s).toOption = some s) := by
  intro req p today now db hreq hfind
  refine ⟨?_, ?_, rfl, rfl, rfl, rfl, rfl, rfl, rfl, rfl, rfl, rfl, rfl, rfl,
    rfl, rfl, rfl, rfl, rfl, rfl, rfl, rfl, rfl, fun s => rfl⟩
  · cases hci : req.customer_info with
    | none =>
        exact ⟨none, by
          simp [update_customer_info, update_customer_info_run, hreq, hci,
            processPolicyPayload, hfind]⟩
    | some q =>
        exact ⟨some (processInfoPayload q db.customer_info).1, by
          simp [update_customer_info, update_customer_info_run, hreq, hci,
            processPolicyPayload, hfind]⟩
  · cases hci : req.customer_info <;>
      simp [update_customer_info, update_customer_info_run, hreq, hci,
        processPolicyPayload, hfind]

/--
Witness for C7: updating the unknown customer "Ravi" inserts a fresh record
with customer_since = 77 and null for every unsupplied field, and the table
gains exactly that record.
-/
theorem C7_create_policy_defaults_witness :
    ((update_customer_info { customer_policy := some payRavi } 77 88
        ⟨[], [rowAsha]⟩).2).customer_policies =
      [rowAsha, createCustomerPolicy payRavi 77 88] ∧
    (createCustomerPolicy payRavi 77 88).customer_since = 77 ∧
    (createCustomerPolicy payRavi 77 88).last_policy_renewal = none ∧
    (createCustomerPolicy payRavi 77 88).location = none ∧
    (createCustomerPolicy payRavi 77 88).medical_insurance = some "Family" := by
  have h := C7_create_policy_defaults { customer_policy := some payRavi }
    payRavi 77 88 ⟨[], [rowAsha]⟩ rfl (by decide)
  exact ⟨h.2.1, h.2.2.1, h.2.2.2.1, rfl, rfl⟩

/--
C8: For every update request carrying both sub-payloads, the customer_info
change is committed before the customer_policy sub-payload is processed, so
if processing the customer_policy sub-payload fails, the already-committed
customer_info change persists and only the in-flight (uncommitted)
customer_policy transaction is rolled back; there is no atomicity across the
two entities.
-/
theorem C8_commit_per_subpayload :
    ∀ (req : UpdateCustomerInfoRequest) (q : CustomerInfoUpdateRequest)
      (p : CustomerPolicyUpdateRequest) (today : Date) (now : DateTime)
      (db : DB),
      req.customer_info = some q → req.customer_policy = some p →
      update_customer_info_run req today now false db =
        (.internalError,
         { db with customer_info := (processInfoPayload q db.customer_info).2 }) := by
  intro req q p today now db hq hp
  simp [update_customer_info_run, hq, hp]

/--
Witness for C8: with both sub-payloads present and a failure injected while
processing the customer_policy sub-payload, the customer_info table keeps
the committed upsert of `payDiya` while the customer_policies table is
unchanged.
-/
theorem C8_commit_per_subpayload_witness :
    update_customer_info_run
        { customer_info := some payDiya, customer_policy := some payAsha }
        50 60 false ⟨[rowDiya], [rowAsha]⟩ =
      (.internalError,
       ⟨(processInfoPayload payDiya [rowDiya]).2, [rowAsha]⟩) ∧
    (processInfoPayload payDiya [rowDiya]).2 =
      [updateExistingCustomerInfo payDiya rowDiya] := by
  exact ⟨C8_commit_per_subpayload
    { customer_info := some payDiya, customer_policy := some payAsha }
    payDiya payAsha 50 60 ⟨[rowDiya], [rowAsha]⟩ rfl rfl, by decide⟩

/--
C9: For every update request targeting an existing CustomerPolicy record,
the stored customer_since and last_policy_renewal fields are left unchanged:
the update contract contains neither field, so no request payload can modify
them through this endpoint, and last_policy_renewal can never be set to
non-null via the API at all (the create branch leaves it null too).
-/
theorem C9_policy_dates_frame :
    (∀ (p : CustomerPolicyUpdateRequest) (now : DateTime)
        (old : CustomerPolicies),
      (updateExistingCustomerPolicy p now old).customer_since =
        old.customer_since ∧
      (updateExistingCustomerPolicy p now old).last_policy_renewal =
        old.last_policy_renewal) ∧
    (∀ (p : CustomerPolicyUpdateRequest) (today : Date) (now : DateTime),
      (createCustomerPolicy p today now).last_policy_renewal = none) := by
  exact ⟨fun p now old => ⟨rfl, rfl⟩, fun p today now => rfl⟩

/--
C10: For an update request whose customer_info sub-payload supplies
final_premium_amount as the empty string: if no CustomerInfoSummary record
exists for that customer, the new record stores final_premium_amount as null
(empty string is falsy on the create path), but if a record already exists,
its final_premium_amount is overwritten with the empty string (the update
path tests `is not None`), so the create and update paths disagree on this
input.
-/
theorem C10_empty_string_premium_paths :
    ∀ (p : CustomerInfoUpdateRequest) (table : List CustomerInfo),
      p.final_premium_amount = some "" →
      (findInfo table p.customer_name = none →
        (processInfoPayload p table).1.final_premium_amount = none) ∧
      (∀ old, findInfo table p.customer_name = some old →
        (processInfoPayload p table).1.final_premium_amount = some "") := by
  intro p table hp
  constructor
  · intro hf
    simp [processInfoPayload, hf, createCustomerInfo, pyTruthy, hp]
  · intro old hf
    simp [processInfoPayload, hf, updateExistingCustomerInfo, hp]
    rfl

/--
Witness for C10: the payload `payEmpty` supplies the empty-string premium;
against the empty table it creates a row with a null premium, against a
table holding `rowDiya` it overwrites the stored premium with the empty
string.
-/
theorem C10_empty_string_premium_paths_witness :
    (processInfoPayload payEmpty []).1.final_premium_amount = none ∧
    (processInfoPayload payEmpty [rowDiya]).1.final_premium_amount =
      some "" := by
  exact ⟨(C10_empty_string_premium_paths payEmpty [] rfl).1 rfl,
    (C10_empty_string_premium_paths payEmpty [rowDiya] rfl).2 rowDiya
      (by decide)⟩

end PolicyExpert
